import Mathlib

/-
  Verification of the voice-assistant command pipeline in src/main.py
  (class VoiceAssistant).  Each Python routine relevant to the claims is
  shallowly embedded as an executable Lean definition; external
  collaborators (the speech recognizer, the HTTP backend, the ElevenLabs
  client) appear as explicit parameters or outcome enumerations.
-/

namespace Cortana

/-! ## ASCII code-level text primitives

The recognizer lower-cases all text, and the wake-word regex is compiled
with re.IGNORECASE; we model text as lists of Unicode code points
(`Char.toNat`) and case folding as ASCII folding. -/

/-- ASCII lower-casing of one code point (A-Z ↦ a-z). -/
def lowerCode (n : Nat) : Nat := if 65 ≤ n ∧ n ≤ 90 then n + 32 else n

/-- ASCII upper-casing of one code point (a-z ↦ A-Z). -/
def upperCode (n : Nat) : Nat := if 97 ≤ n ∧ n ≤ 122 then n - 32 else n

/-- Word-character test of the regex metacharacter backslash-w restricted to
ASCII: letters, digits and the underscore. -/
def isWordCode (n : Nat) : Bool :=
  (48 ≤ n && n ≤ 57) || (65 ≤ n && n ≤ 90) || (97 ≤ n && n ≤ 122) || (n == 95)

/-- Code points of a string. -/
def strCodes (s : String) : List Nat := s.data.map Char.toNat

/-- The pattern `p` occurs literally in `t` starting at index `i`. -/
def subAt (t : List Nat) (i : Nat) (p : List Nat) : Bool :=
  decide (i + p.length ≤ t.length)
    && (List.range p.length).all (fun j => t.getD (i + j) 0 == p.getD j 0)

/-- Python substring containment, `sub in t`. -/
def containsCodes (t p : List Nat) : Bool :=
  (List.range (t.length + 1)).any (fun i => subAt t i p)

/-- Models the Python expression `sub in text` on `str`. -/
def strContains (t sub : String) : Bool := containsCodes (strCodes t) (strCodes sub)

/-- The character before position `i` is a word character (false at the
start of the text). -/
def prevIsWord (t : List Nat) (i : Nat) : Bool :=
  match i with
  | 0 => false
  | Nat.succ j => decide (j < t.length) && isWordCode (t.getD j 0)

/-- The character at position `i` is a word character (false past the end). -/
def hereIsWord (t : List Nat) (i : Nat) : Bool :=
  decide (i < t.length) && isWordCode (t.getD i 0)

/-- The regex metacharacter backslash-b: a word boundary holds at position
`i` when exactly one of the two neighbouring positions is a word character. -/
def boundaryAt (t : List Nat) (i : Nat) : Bool := prevIsWord t i != hereIsWord t i

/-- The word-bounded pattern matches at index `i`: literal occurrence of `p`
with a word boundary on each side. -/
def matchCodesAt (t p : List Nat) (i : Nat) : Bool :=
  subAt t i p && boundaryAt t i && boundaryAt t (i + p.length)

/-- re.search of the pattern backslash-b `p` backslash-b over `t`: some
position matches. -/
def searchCodes (t p : List Nat) : Bool :=
  (List.range (t.length + 1)).any (fun i => matchCodesAt t p i)

/-- Models VoiceAssistant._is_wake_word_detected (src/main.py 143-153):
re.search of the pattern backslash-b re.escape(wake word) backslash-b
compiled with re.IGNORECASE, as a total function of the wake word and the
text.  IGNORECASE is modelled by ASCII case folding of both sides. -/
def isWakeWordDetected (wakeWord text : String) : Bool :=
  searchCodes ((strCodes text).map lowerCode) ((strCodes wakeWord).map lowerCode)

/-! ## Conversation history, response cache, get_ollama_response -/

/-- One chat message, `{"role": ..., "content": ...}`. -/
structure Turn where
  role : String
  content : String
deriving DecidableEq

/-- State touched by get_ollama_response: `self.conversation_history` and the
functools.lru_cache attached to the method.  The cache is an association
list from query text to the returned response, most recently used first. -/
structure OllamaState where
  history : List Turn
  cache : List (String × String)
deriving DecidableEq

/-- Outcome of the single requests.post call:
  * `success r` — 2xx response whose JSON body has message.content = r;
  * `requestError` — any requests.RequestException: connection failure,
    timeout, non-2xx status raised by raise_for_status, or a body that is
    not valid JSON;
  * `missingField` — a 2xx valid-JSON body without the message/content
    keys, which raises KeyError, an exception the function does not catch. -/
inductive BackendOutcome where
  | success (content : String)
  | requestError
  | missingField
deriving DecidableEq

instance {α β : Type} [DecidableEq α] [DecidableEq β] : DecidableEq (Except α β) := fun x y =>
  match x, y with
  | .ok a, .ok b =>
      if h : a = b then .isTrue (by rw [h]) else .isFalse (fun hh => by cases hh; exact h rfl)
  | .error a, .error b =>
      if h : a = b then .isTrue (by rw [h]) else .isFalse (fun hh => by cases hh; exact h rfl)
  | .ok _, .error _ => .isFalse (fun hh => by cases hh)
  | .error _, .ok _ => .isFalse (fun hh => by cases hh)

/-- Result of one call of the lru_cache-wrapped get_ollama_response:
the returned string (or `Except.error ()` when a Python exception escapes
the call), the new state, and whether a backend request was issued. -/
structure CallResult where
  ret : Except Unit String
  state : OllamaState
  backendCalled : Bool
deriving DecidableEq

/-- Cache lookup by exact query text. -/
def cacheLookup (c : List (String × String)) (q : String) : Option String :=
  (c.find? (fun e => e.1 == q)).map (fun e => e.2)

/-- lru_cache recency update on a hit: the entry moves to the front. -/
def cacheTouch (c : List (String × String)) (q r : String) : List (String × String) :=
  (q, r) :: c.filter (fun e => !(e.1 == q))

/-- maxsize of the lru_cache decorator on get_ollama_response. -/
def lruMaxsize : Nat := 64

/-- lru_cache insertion after a miss: store the returned value at the front
and evict the least recently used entries beyond maxsize. -/
def cacheInsert (c : List (String × String)) (q r : String) : List (String × String) :=
  ((q, r) :: c.filter (fun e => !(e.1 == q))).take lruMaxsize

/-- The fixed fallback returned on a requests.RequestException
(src/main.py 141). -/
def fallbackResponse : String :=
  "Sorry, I\x27m experiencing technical difficulties connecting to my AI system."

/-- History update at the top of get_ollama_response (src/main.py 108-112):
append the user turn, then pop one element from the front when the length
exceeds max_history_length.  Note the pop runs once, not in a loop. -/
def appendTrim (maxHistory : Nat) (h : List Turn) (query : String) : List Turn :=
  let h1 := h ++ [⟨"user", query⟩]
  if maxHistory < h1.length then h1.tail else h1

/-- Body of get_ollama_response after a cache miss (src/main.py 107-141):
append-and-trim the user turn, issue the backend request with the current
history as payload, and on success append the assistant turn (with no
trim).  On requestError the fallback string is returned; on missingField
the KeyError escapes. -/
def ollamaBody (maxHistory : Nat) (backend : List Turn → BackendOutcome)
    (st : OllamaState) (query : String) : CallResult :=
  let h2 := appendTrim maxHistory st.history query
  match backend h2 with
  | .success r =>
      { ret := .ok r
        state := { history := h2 ++ [⟨"assistant", r⟩], cache := st.cache }
        backendCalled := true }
  | .requestError =>
      { ret := .ok fallbackResponse
        state := { history := h2, cache := st.cache }
        backendCalled := true }
  | .missingField =>
      { ret := .error ()
        state := { history := h2, cache := st.cache }
        backendCalled := true }

/-- The lru_cache-wrapped get_ollama_response (src/main.py 99-141).  On a
hit the wrapped body does not run: the memoized string is returned and only
the recency order changes.  On a miss the body runs and its return value —
including the fallback string — is memoized; nothing is memoized when the
body raises. -/
def getOllamaResponse (maxHistory : Nat) (backend : List Turn → BackendOutcome)
    (st : OllamaState) (query : String) : CallResult :=
  match cacheLookup st.cache query with
  | some r =>
      { ret := .ok r
        state := { history := st.history, cache := cacheTouch st.cache query r }
        backendCalled := false }
  | none =>
      let o := ollamaBody maxHistory backend st query
      match o.ret with
      | .ok r => { o with state := { o.state with cache := cacheInsert o.state.cache query r } }
      | .error _ => o

/-- A backend that always succeeds with the same reply. -/
def okBackend (r : String) : List Turn → BackendOutcome := fun _ => .success r

/-- A backend whose every request fails with a requests.RequestException. -/
def failBackend : List Turn → BackendOutcome := fun _ => .requestError

/-- A sequence of exchanges, threading the state through get_ollama_response. -/
def runExchanges (maxHistory : Nat) (backend : List Turn → BackendOutcome)
    (st : OllamaState) : List String → OllamaState
  | [] => st
  | q :: qs => runExchanges maxHistory backend (getOllamaResponse maxHistory backend st q).state qs

/-! ## Dispatch loop (process_audio inside listen_for_input) -/

/-- The fixed exit phrase tested by `"goodbye cortana" in text`
(src/main.py 211). -/
def exitPhrase : String := "goodbye cortana"

/-- Wake acknowledgement spoken before process_user_input (src/main.py 208). -/
def ackMsg : String := "Yes, just a moment."

/-- Farewell spoken before shutdown (src/main.py 212). -/
def farewellMsg : String := "Goodbye! Shutting down."

/-- Observable events of the consumer thread process_audio. -/
inductive DEvent where
  | checkStop
  | dequeue (t : String)
  | speakEv (s : String)
  | commandHandling
  | setStop
  | sysExit
deriving DecidableEq

/-- Events of the process_audio body for one dequeued text
(src/main.py 207-214): first an `if` on the wake word that speaks the
acknowledgement and calls process_user_input, then a second independent
`if` on the exit phrase that speaks the farewell, sets stop_event and
raises SystemExit. -/
def itemEvents (wakeWord t : String) : List DEvent :=
  (if isWakeWordDetected wakeWord t then [DEvent.speakEv ackMsg, DEvent.commandHandling] else [])
    ++ (if strContains t exitPhrase then [DEvent.speakEv farewellMsg, DEvent.setStop, DEvent.sysExit]
        else [])

/-- The number of times stop_event.set() occurs in a dispatch event list. -/
def countSetStop : List DEvent → Nat
  | [] => 0
  | e :: rest => (if e = DEvent.setStop then 1 else 0) + countSetStop rest

/-- Event trace of the process_audio loop over the queued items, while no
other thread sets stop_event: each iteration checks the stop flag, blocks
on the queue, and handles the dequeued item to completion; SystemExit from
an exit-phrase item ends the loop. -/
def dispatchTrace (wakeWord : String) : List String → List DEvent
  | [] => [DEvent.checkStop]
  | t :: rest =>
      DEvent.checkStop :: DEvent.dequeue t ::
        (itemEvents wakeWord t ++
          (if strContains t exitPhrase then [] else dispatchTrace wakeWord rest))

/-- The queued items that process_audio actually handles, in order: the
whole queue up to and including the first exit-phrase item. -/
def dispatchProcessed (wakeWord : String) : List String → List String
  | [] => []
  | t :: rest =>
      t :: (if strContains t exitPhrase then [] else dispatchProcessed wakeWord rest)

/-! ## speak and the ElevenLabs client -/

/-- Events of one speak(text) call with an initialized client. -/
inductive SpkEv where
  | submitTask
  | synthesize
  | playback
  | executorShutdown
  | callerResumes
deriving DecidableEq

/-- CPython semantics of `with concurrent.futures.ThreadPoolExecutor(...)`:
the suite submits the task, and Executor.__exit__ calls
shutdown(wait=True), so every submitted task finishes before the with
statement completes. -/
def withPoolSubmit (task : List SpkEv) : List SpkEv :=
  SpkEv.submitTask :: task ++ [SpkEv.executorShutdown]

/-- Body of the generate_and_play worker (src/main.py 84-93). -/
def generateAndPlay : List SpkEv := [SpkEv.synthesize, SpkEv.playback]

/-- Event trace of speak(text) for an initialized client
(src/main.py 84-97): the worker is submitted to a fresh single-worker
pool inside a with statement, and control returns to the caller only
after the with statement completes. -/
def speakTrace : List SpkEv := withPoolSubmit generateAndPlay ++ [SpkEv.callerResumes]

/-- Models _init_elevenlabs_voice (src/main.py 59-69): the client attribute
stays None when no API key is configured, and also when the ElevenLabs
constructor raises (the exception is logged as a warning).  The client is
modelled by the key it wraps. -/
def initElevenlabsVoice (apiKey : Option String) (ctorRaises : Bool) : Option String :=
  match apiKey with
  | none => none
  | some k => if ctorRaises then none else some k

/-- Observable outcome of one speak(text) call. -/
structure SpeakOutcome where
  warnings : Nat
  rendered : List String
  raised : Bool
deriving DecidableEq

/-- Models speak(text) (src/main.py 78-97) as a function of the client and
of whether synthesis fails.  With no client it logs one warning and
returns; with a client the worker either renders the text or catches the
synthesis error internally.  No branch raises to the caller. -/
def speakRun (client : Option String) (synthesisFails : Bool) (text : String) : SpeakOutcome :=
  match client with
  | none => { warnings := 1, rendered := [], raised := false }
  | some _ =>
      if synthesisFails then { warnings := 0, rendered := [], raised := false }
      else { warnings := 0, rendered := [text], raised := false }

/-! ## process_user_input -/

/-- Prompt spoken inside the microphone block (src/main.py 237). -/
def promptMsg : String := "How can I help you?"

/-- Reply to a capture timeout (src/main.py 250). -/
def timeoutMsg : String := "Listening timeout. Please try again."

/-- Reply to unintelligible audio (src/main.py 252). -/
def unknownMsg : String := "Sorry, I couldn\x27t understand what you said."

/-- Generic reply to any other exception (src/main.py 255). -/
def genericMsg : String := "An unexpected error occurred. Please try again."

/-- Outcome of the microphone block of process_user_input:
  * `micError` — sr.Microphone() raises before the prompt is spoken;
  * `timeoutErr` — _recognize_audio raises sr.WaitTimeoutError;
  * `unknownErr` — _recognize_audio raises sr.UnknownValueError;
  * `recognizerError` — _recognize_audio raises any other exception;
  * `ok text` — recognition succeeds with the lower-cased text. -/
inductive CaptureOutcome where
  | micError
  | timeoutErr
  | unknownErr
  | recognizerError
  | ok (text : String)
deriving DecidableEq

/-- Observable result of process_user_input. -/
structure PUIResult where
  spoken : List String
  state : OllamaState
  backendCalled : Bool
  raised : Bool
deriving DecidableEq

/-- Models process_user_input (src/main.py 232-255).  The capture outcome
selects the branch; on success, get_ollama_response runs on a worker and
future.result() re-raises its KeyError, which the outer except Exception
catches.  The response (or the fallback) is spoken after the prompt. -/
def processUserInput (maxHistory : Nat) (backend : List Turn → BackendOutcome)
    (st : OllamaState) (capture : CaptureOutcome) : PUIResult :=
  match capture with
  | .micError =>
      { spoken := [genericMsg], state := st, backendCalled := false, raised := false }
  | .timeoutErr =>
      { spoken := [promptMsg, timeoutMsg], state := st, backendCalled := false, raised := false }
  | .unknownErr =>
      { spoken := [promptMsg, unknownMsg], state := st, backendCalled := false, raised := false }
  | .recognizerError =>
      { spoken := [promptMsg, genericMsg], state := st, backendCalled := false, raised := false }
  | .ok q =>
      let o := getOllamaResponse maxHistory backend st q
      match o.ret with
      | .ok r =>
          { spoken := [promptMsg, r], state := o.state
            backendCalled := o.backendCalled, raised := false }
      | .error _ =>
          { spoken := [promptMsg, genericMsg], state := o.state
            backendCalled := o.backendCalled, raised := false }

/-! ## Capture loop (audio_listener inside listen_for_input) -/

/-- Outcome of one iteration of audio_listener: the microphone block either
produces a recognized lower-cased text, raises one of the two transient
recognition exceptions, or raises any other exception (microphone
unavailable included). -/
inductive ListenOutcome where
  | recognized (t : String)
  | unintelligible
  | waitTimeout
  | deviceError
deriving DecidableEq

/-- Observable state of the producer thread: the hand-off queue and the log
counters, plus whether the loop has requested shutdown. -/
structure ListenerState where
  queue : List String
  errorLogs : Nat
  criticalLogs : Nat
  stopRequested : Bool
deriving DecidableEq

/-- One iteration body of audio_listener (src/main.py 188-199): recognized
text is enqueued; sr.UnknownValueError and sr.WaitTimeoutError are
discarded; every other exception is logged through logger.error and the
loop continues.  No branch sets stop_event, logs critical, or leaves the
loop. -/
def listenerStep (st : ListenerState) (o : ListenOutcome) : ListenerState :=
  match o with
  | .recognized t => { st with queue := st.queue ++ [t] }
  | .unintelligible => st
  | .waitTimeout => st
  | .deviceError => { st with errorLogs := st.errorLogs + 1 }

/-- audio_listener while stop_event stays unset: the loop handles every
outcome in order and keeps iterating. -/
def audioListenerRun (st : ListenerState) : List ListenOutcome → ListenerState
  | [] => st
  | o :: rest => audioListenerRun (listenerStep st o) rest

/-- The recognized texts of a run, in order. -/
def recognizedTexts : List ListenOutcome → List String
  | [] => []
  | .recognized t :: rest => t :: recognizedTexts rest
  | _ :: rest => recognizedTexts rest

/-- The number of outcomes the listener logs through logger.error. -/
def deviceErrorCount : List ListenOutcome → Nat
  | [] => 0
  | .deviceError :: rest => deviceErrorCount rest + 1
  | _ :: rest => deviceErrorCount rest

/-! ## Theorems -/

/-- C1: the spec demands that the conversation history never exceeds
max_history_length and that a store with max_history_length = 0 stays
empty.  The code evaluated at the failing inputs: with the bound 0 one
successful exchange leaves one turn in the history (the assistant turn is
appended with no trim), and with the default bound 5 six successful
exchanges leave nine turns — each exchange adds two turns and evicts at
most one, so the history grows without bound. -/
theorem C1_history_bound_violated :
    (getOllamaResponse 0 (okBackend "ok") ⟨[], []⟩ "hi").state.history.length = 1
    ∧ (runExchanges 5 (okBackend "ok") ⟨[], []⟩
        ["q1", "q2", "q3", "q4", "q5", "q6"]).history.length = 9 :=
  ⟨by decide, by decide⟩

/-- C2 counterexample: with an empty history and cache, a query whose
backend request raises a RequestException returns the fallback string, yet
the user turn stays appended to the conversation history and the fallback
is memoized by the lru_cache — so the call does not leave history and
cache as they were. -/
theorem C2_counterexample :
    (getOllamaResponse 5 failBackend ⟨[], []⟩ "hello").ret = .ok fallbackResponse
    ∧ (getOllamaResponse 5 failBackend ⟨[], []⟩ "hello").state.history = [⟨"user", "hello"⟩]
    ∧ (getOllamaResponse 5 failBackend ⟨[], []⟩ "hello").state.cache
        = [("hello", fallbackResponse)] :=
  ⟨by decide, by decide, by decide⟩

/-- C2 (amended): on a cache miss whose backend request fails with a
RequestException, get_ollama_response returns the fixed fallback string
and appends no assistant turn, but the user turn appended before the call
remains in the history (after the one-element FIFO trim), and the fallback
is stored in the response cache under the query. -/
theorem C2_fallback_amended (maxHistory : Nat) (b : List Turn → BackendOutcome)
    (st : OllamaState) (q : String)
    (hmiss : cacheLookup st.cache q = none)
    (hfail : b (appendTrim maxHistory st.history q) = .requestError) :
    getOllamaResponse maxHistory b st q =
      { ret := .ok fallbackResponse
        state := { history := appendTrim maxHistory st.history q
                   cache := cacheInsert st.cache q fallbackResponse }
        backendCalled := true } := by
  simp only [getOllamaResponse, ollamaBody, hmiss, hfail]

/-- Witness for C2_fallback_amended at a concrete input. -/
theorem C2_fallback_amended_witness :
    (getOllamaResponse 3 failBackend ⟨[], []⟩ "hey").ret = .ok fallbackResponse := by
  rw [C2_fallback_amended 3 failBackend ⟨[], []⟩ "hey" (by decide) rfl]

/-- C3: on a cache hit, get_ollama_response returns the memoized response,
issues no backend request, and leaves the conversation history unchanged;
the only state change is the recency bump inside the lru_cache. -/
theorem C3_cache_hit (maxHistory : Nat) (b : List Turn → BackendOutcome)
    (st : OllamaState) (q r : String) (h : cacheLookup st.cache q = some r) :
    getOllamaResponse maxHistory b st q =
      { ret := .ok r
        state := { history := st.history, cache := cacheTouch st.cache q r }
        backendCalled := false } := by
  simp only [getOllamaResponse, h]

/-- Witness for C3_cache_hit at a concrete input. -/
theorem C3_cache_hit_witness :
    getOllamaResponse 5 failBackend ⟨[], [("hi", "cached")]⟩ "hi" =
      { ret := .ok "cached"
        state := { history := [], cache := cacheTouch [("hi", "cached")] "hi" "cached" }
        backendCalled := false } :=
  C3_cache_hit 5 failBackend ⟨[], [("hi", "cached")]⟩ "hi" "cached" (by decide)

/-- C5: the code evaluated on its event trace: speak submits the worker to
a fresh pool, but the with statement joins the pool, so the caller resumes
only after synthesis and playback have completed — speak blocks for the
whole rendering, contrary to the non-blocking contract (and to the
comment in the source). -/
theorem C5_speak_blocks :
    speakTrace = [SpkEv.submitTask, SpkEv.synthesize, SpkEv.playback,
      SpkEv.executorShutdown, SpkEv.callerResumes]
    ∧ speakTrace.indexOf SpkEv.playback < speakTrace.indexOf SpkEv.callerResumes :=
  ⟨by decide, by decide⟩

/-- C8 counterexample: a device failure is followed by a successfully
recognized utterance that the loop still enqueues — the loop did not end
at the device failure, logged it through logger.error rather than
logger.critical, and never requested shutdown. -/
theorem C8_counterexample :
    audioListenerRun ⟨[], 0, 0, false⟩
        [ListenOutcome.deviceError, ListenOutcome.recognized "hi"]
      = { queue := ["hi"], errorLogs := 1, criticalLogs := 0, stopRequested := false } := by
  decide

/-- C8 (amended): transient recognition failures are discarded and the
loop continues; a device or any other failure is logged at error (not
critical) level and the loop also continues, neither ending nor
triggering supervisor shutdown — the loop runs until the shutdown signal
is set externally, enqueueing exactly the recognized texts in order. -/
theorem C8_listener_amended (st : ListenerState) (os : List ListenOutcome) :
    audioListenerRun st os =
      { queue := st.queue ++ recognizedTexts os
        errorLogs := st.errorLogs + deviceErrorCount os
        criticalLogs := st.criticalLogs
        stopRequested := st.stopRequested } := by
  induction os generalizing st with
  | nil => simp [audioListenerRun, recognizedTexts, deviceErrorCount]
  | cons o rest ih =>
    cases o <;>
      simp [audioListenerRun, listenerStep, ih, recognizedTexts, deviceErrorCount,
        ListenerState.mk.injEq]
    all_goals omega

/-- C9: with no ElevenLabs API key (or a failed client construction) the
client stays uninitialized, and every speak(text) call logs one warning,
renders nothing and returns normally without raising. -/
theorem C9_speak_silent_noop :
    (∀ ctorRaises : Bool, initElevenlabsVoice none ctorRaises = none)
    ∧ (∀ k : String, initElevenlabsVoice (some k) true = none)
    ∧ (∀ (synthesisFails : Bool) (text : String),
        speakRun none synthesisFails text
          = { warnings := 1, rendered := [], raised := false }) :=
  ⟨fun _ => rfl, fun _ => rfl, fun _ _ => rfl⟩

/-- countSetStop distributes over concatenation. -/
lemma countSetStop_append (xs ys : List DEvent) :
    countSetStop (xs ++ ys) = countSetStop xs + countSetStop ys := by
  induction xs with
  | nil => simp [countSetStop]
  | cons x rest ih => simp [countSetStop, ih]; omega

/-- The events of one item contain one stop_event.set() exactly when the
item contains the exit phrase. -/
lemma countSetStop_itemEvents (w t : String) :
    countSetStop (itemEvents w t) = if strContains t exitPhrase then 1 else 0 := by
  unfold itemEvents
  cases hw : isWakeWordDetected w t <;> cases he : strContains t exitPhrase <;>
    simp [countSetStop_append, countSetStop]

/-- A prefix of exit-free items contributes no stop_event.set() to the
dispatch trace. -/
lemma countSetStop_dispatchTrace_append (w : String) (xs L : List String)
    (h : ∀ x ∈ xs, strContains x exitPhrase = false) :
    countSetStop (dispatchTrace w (xs ++ L)) = countSetStop (dispatchTrace w L) := by
  induction xs with
  | nil => simp
  | cons x rest ih =>
    have hx : strContains x exitPhrase = false := h x (by simp)
    have ih2 := ih (fun y hy => h y (by simp [hy]))
    simp [dispatchTrace, hx, countSetStop, countSetStop_append, countSetStop_itemEvents, ih2]

/-- Exit-free items at the head of the queue are all processed first, in
order, before anything that joins the queue behind them. -/
lemma dispatchProcessed_append (w : String) (xs ys : List String)
    (h : ∀ x ∈ xs, strContains x exitPhrase = false) :
    dispatchProcessed w (xs ++ ys) = xs ++ dispatchProcessed w ys := by
  induction xs with
  | nil => simp
  | cons x rest ih =>
    have hx : strContains x exitPhrase = false := h x (by simp)
    have ih2 := ih (fun y hy => h y (by simp [hy]))
    simp [dispatchProcessed, hx, ih2]

/-- C4 counterexample: for the dequeued item "hey cortana goodbye cortana"
the wake-phrase check fires and process_user_input is invoked even though
the item contains the exit phrase — the exit check is a second
independent if after the wake check, not an else-if taking precedence. -/
theorem C4_counterexample :
    DEvent.commandHandling ∈ itemEvents "hey cortana" "hey cortana goodbye cortana"
    ∧ strContains "hey cortana goodbye cortana" exitPhrase = true :=
  ⟨by decide, by decide⟩

/-- C4 (amended): for the first dequeued item containing the exit phrase,
the loop speaks the farewell and sets the shutdown signal, the signal is
set exactly once in the whole run, and no later item is processed; the
wake-phrase handling runs for that same item exactly when the wake phrase
also matches, because the exit check is an independent second if, not an
else-if. -/
theorem C4_exit_amended (w t : String) (pre rest : List String)
    (hpre : ∀ x ∈ pre, strContains x exitPhrase = false)
    (ht : strContains t exitPhrase = true) :
    DEvent.speakEv farewellMsg ∈ itemEvents w t
    ∧ DEvent.setStop ∈ itemEvents w t
    ∧ countSetStop (dispatchTrace w (pre ++ t :: rest)) = 1
    ∧ dispatchProcessed w (pre ++ t :: rest) = pre ++ [t]
    ∧ (DEvent.commandHandling ∈ itemEvents w t ↔ isWakeWordDetected w t = true) := by
  refine ⟨?_, ?_, ?_, ?_, ?_⟩
  · unfold itemEvents
    cases hw : isWakeWordDetected w t <;> simp [ht]
  · unfold itemEvents
    cases hw : isWakeWordDetected w t <;> simp [ht]
  · rw [countSetStop_dispatchTrace_append w pre (t :: rest) hpre]
    simp [dispatchTrace, ht, countSetStop, countSetStop_append, countSetStop_itemEvents]
  · rw [dispatchProcessed_append w pre (t :: rest) hpre]
    simp [dispatchProcessed, ht]
  · unfold itemEvents
    cases hw : isWakeWordDetected w t <;> simp [ht]

/-- Witness for C4_exit_amended at a concrete input. -/
theorem C4_exit_amended_witness :
    countSetStop (dispatchTrace "hey cortana"
      (["hello there"] ++ "goodbye cortana" :: ["later item"])) = 1 :=
  (C4_exit_amended "hey cortana" "goodbye cortana" ["hello there"] ["later item"]
    (by decide) (by decide)).2.2.1

/-- C10: the dispatch loop handles items strictly one at a time: the
handler events of one item contain no queue pop and no shutdown-flag
check, and items that join the queue behind an exit-free prefix are
processed only after that whole prefix, in FIFO order. -/
theorem C10_one_item_at_a_time :
    (∀ w t : String,
      (∀ s : String, DEvent.dequeue s ∉ itemEvents w t)
      ∧ DEvent.checkStop ∉ itemEvents w t)
    ∧ (∀ (w : String) (xs ys : List String), (∀ x ∈ xs, strContains x exitPhrase = false) →
        dispatchProcessed w (xs ++ ys) = xs ++ dispatchProcessed w ys) := by
  constructor
  · intro w t
    constructor
    · intro s
      unfold itemEvents
      cases isWakeWordDetected w t <;> cases strContains t exitPhrase <;> simp
    · unfold itemEvents
      cases isWakeWordDetected w t <;> cases strContains t exitPhrase <;> simp
  · exact fun w xs ys h => dispatchProcessed_append w xs ys h

/-- Witness for C10_one_item_at_a_time at a concrete input. -/
theorem C10_witness :
    dispatchProcessed "hey cortana" (["hello there"] ++ ["hey cortana now"])
      = ["hello there"] ++ dispatchProcessed "hey cortana" ["hey cortana now"] :=
  C10_one_item_at_a_time.2 "hey cortana" ["hello there"] ["hey cortana now"] (by decide)

/-- ASCII case folding absorbs prior upper-casing. -/
lemma lowerCode_upperCode (n : Nat) : lowerCode (upperCode n) = lowerCode n := by
  unfold lowerCode upperCode
  split_ifs <;> omega

/-- Unfolding of prevIsWord at a successor position. -/
lemma prevIsWord_succ (t : List Nat) (j : Nat) :
    prevIsWord t (j + 1) = (decide (j < t.length) && isWordCode (t.getD j 0)) := rfl

/-- Every matched position of the word-bounded pattern has a non-word
neighbour (or the text edge) on each side, provided the pattern itself
starts and ends with word characters. -/
lemma matchCodesAt_boundaries (t p : List Nat) (i : Nat)
    (hm : matchCodesAt t p i = true) (hp : p ≠ [])
    (hhead : isWordCode (p.getD 0 0) = true)
    (hlast : isWordCode (p.getD (p.length - 1) 0) = true) :
    (i = 0 ∨ isWordCode (t.getD (i - 1) 0) = false)
    ∧ (i + p.length = t.length ∨ isWordCode (t.getD (i + p.length) 0) = false) := by
  have hplen : 0 < p.length := List.length_pos.mpr hp
  unfold matchCodesAt at hm
  rw [Bool.and_eq_true, Bool.and_eq_true] at hm
  obtain ⟨⟨hsub, hb1⟩, hb2⟩ := hm
  unfold subAt at hsub
  rw [Bool.and_eq_true] at hsub
  have hlen : i + p.length ≤ t.length := of_decide_eq_true hsub.1
  have hpoint : ∀ j, j < p.length → t.getD (i + j) 0 = p.getD j 0 := by
    intro j hj
    have := List.all_eq_true.mp hsub.2 j (List.mem_range.mpr hj)
    simpa using this
  have hi_lt : i < t.length := by omega
  have h0 := hpoint 0 hplen
  rw [Nat.add_zero] at h0
  have hhere : hereIsWord t i = true := by
    unfold hereIsWord
    rw [decide_eq_true hi_lt, h0, hhead, Bool.and_self]
  have hprev : prevIsWord t i = false := by
    unfold boundaryAt at hb1
    cases hpv : prevIsWord t i
    · rfl
    · rw [hpv, hhere] at hb1
      simp at hb1
  constructor
  · cases i with
    | zero => exact Or.inl rfl
    | succ j =>
      right
      rw [prevIsWord_succ] at hprev
      have hjlt : j < t.length := by omega
      rw [decide_eq_true hjlt, Bool.true_and] at hprev
      simpa using hprev
  · have hlast_pt : t.getD (i + (p.length - 1)) 0 = p.getD (p.length - 1) 0 :=
      hpoint (p.length - 1) (by omega)
    have hprev2 : prevIsWord t (i + p.length) = true := by
      have hsucc : i + p.length = (i + (p.length - 1)) + 1 := by omega
      rw [hsucc, prevIsWord_succ]
      have hlt : i + (p.length - 1) < t.length := by omega
      rw [decide_eq_true hlt, hlast_pt, hlast, Bool.and_self]
    have hhere2 : hereIsWord t (i + p.length) = false := by
      unfold boundaryAt at hb2
      cases hh : hereIsWord t (i + p.length)
      · rfl
      · rw [hprev2, hh] at hb2
        simp at hb2
    unfold hereIsWord at hhere2
    by_cases hcase : i + p.length < t.length
    · right
      rw [decide_eq_true hcase, Bool.true_and] at hhere2
      exact hhere2
    · left
      omega

/-- C6: wake-phrase matching as implemented: the two spec examples hold;
matching is case-insensitive (upper-casing the whole text before the
fold changes nothing); and every match of a phrase that starts and ends
with word characters sits on word boundaries — the phrase is never
matched as part of a larger word.  Purity holds by construction: the
embedding is a total function of the wake word and the text. -/
theorem C6_wake_word_matching :
    isWakeWordDetected "hey cortana" "hey cortana, what time is it" = true
    ∧ isWakeWordDetected "hey cortana" "theyyy cortana" = false
    ∧ (∀ w t : String,
        searchCodes (((strCodes t).map upperCode).map lowerCode) ((strCodes w).map lowerCode)
          = isWakeWordDetected w t)
    ∧ (∀ (t p : List Nat) (i : Nat), matchCodesAt t p i = true → p ≠ [] →
        isWordCode (p.getD 0 0) = true → isWordCode (p.getD (p.length - 1) 0) = true →
        (i = 0 ∨ isWordCode (t.getD (i - 1) 0) = false)
        ∧ (i + p.length = t.length ∨ isWordCode (t.getD (i + p.length) 0) = false)) := by
  refine ⟨by decide, by decide, ?_, ?_⟩
  · intro w t
    unfold isWakeWordDetected
    rw [List.map_map]
    congr 1
    exact List.map_congr_left (fun a _ => lowerCode_upperCode a)
  · exact fun t p i hm hp hh hl => matchCodesAt_boundaries t p i hm hp hh hl

/-- Witness for C6_wake_word_matching at a concrete input: the word-bounded
match of the codes of "hi" inside "hi" itself. -/
theorem C6_wake_word_matching_witness :
    (0 = 0 ∨ isWordCode (([104, 105] : List Nat).getD (0 - 1) 0) = false)
    ∧ (0 + ([104, 105] : List Nat).length = ([104, 105] : List Nat).length
        ∨ isWordCode (([104, 105] : List Nat).getD
            (0 + ([104, 105] : List Nat).length) 0) = false) :=
  C6_wake_word_matching.2.2.2 [104, 105] [104, 105] 0 (by decide) (by decide)
    (by decide) (by decide)

/-- C7: process_user_input never lets an exception escape, and on the two
transient recognition failures it speaks the corresponding retry message
after the prompt and returns without touching the backend or the state. -/
theorem C7_command_routine (maxHistory : Nat) (b : List Turn → BackendOutcome)
    (st : OllamaState) (c : CaptureOutcome) :
    (processUserInput maxHistory b st c).raised = false
    ∧ (c = .timeoutErr →
        processUserInput maxHistory b st c =
          { spoken := [promptMsg, timeoutMsg], state := st
            backendCalled := false, raised := false })
    ∧ (c = .unknownErr →
        processUserInput maxHistory b st c =
          { spoken := [promptMsg, unknownMsg], state := st
            backendCalled := false, raised := false }) := by
  refine ⟨?_, fun hc => by subst hc; rfl, fun hc => by subst hc; rfl⟩
  cases c with
  | ok q =>
    unfold processUserInput
    cases hr : (getOllamaResponse maxHistory b st q).ret <;> simp [hr]
  | micError => rfl
  | timeoutErr => rfl
  | unknownErr => rfl
  | recognizerError => rfl

/-- Witness for C7_command_routine at a concrete input. -/
theorem C7_command_routine_witness :
    processUserInput 5 failBackend ⟨[], []⟩ CaptureOutcome.timeoutErr =
      { spoken := [promptMsg, timeoutMsg], state := ⟨[], []⟩
        backendCalled := false, raised := false } :=
  (C7_command_routine 5 failBackend ⟨[], []⟩ CaptureOutcome.timeoutErr).2.1 rfl

end Cortana

